import Mathlib

/-!
Verification of the supervisor core: the plugin watchdog state machine, the
plugin `load()` attach-or-create orchestration, the job execution guard's
`THROTTLE_WAIT` policy, and the PulseAudio `SoundControl.update` refresh.

The repository provides `supervisor/jobs/const.py`, `supervisor/host/sound.py`
and the plugin-base test suite `tests/plugins/test_plugin_base.py`.  The
plugin base itself (`supervisor/plugins/base.py`) and the job decorator
(`supervisor/jobs/decorator.py`) are not part of the provided sources, so
those components are modelled from the specification (each such definition
carries a doc comment starting `Modelled from the spec:`); the test suite is
used to cross-check the models on the concrete scenarios it exercises.
-/

namespace Supervisor

/-- Container states reported by the runtime monitor
(`supervisor.docker.const.ContainerState`, an external contract; the spec
lists at least RUNNING, HEALTHY, UNHEALTHY, STOPPED, FAILED, UNKNOWN). -/
inductive ContainerState where
  | running
  | healthy
  | unhealthy
  | stopped
  | failed
  | unknown
deriving DecidableEq, Repr

/-- Payload of a container-state event
(`supervisor.docker.monitor.DockerContainerStateEvent`): subject name,
carried state, container id and timestamp. -/
structure DockerContainerStateEvent where
  name : String
  state : ContainerState
  id : String
  time : Nat
deriving DecidableEq, Repr

/-- Observable side effects of one run of the watchdog handler. -/
inductive WatchdogAction where
  | start
  | rebuild
  | sleep (seconds : Nat)
deriving DecidableEq, Repr

/-- Environment a watchdog handler runs against: the owned Plugin Instance's
name, the successive results of reading `current_state()` (the i-th read
returns `read i`), and whether the guarded `start` invocation raises. -/
structure WatchdogEnv where
  name : String
  read : Nat → ContainerState
  startFails : Bool

/-- Modelled from the spec: `PluginBase.watchdog_container` (the plugin base
module is not among the provided sources).  Per §4.2: events whose subject
name differs from the instance's are ignored; before acting the live current
state is re-read and the event is discarded as stale if it no longer equals
the carried state; UNHEALTHY and FAILED trigger `rebuild`, STOPPED triggers
`start`, anything else is a no-op.  If the guarded `start` fails, the handler
escalates to `rebuild` after `WATCHDOG_RETRY_SECONDS` (here the parameter
`retrySeconds`), re-checking first that the live state still reads STOPPED
(the test suite expects exactly two `current_state` reads in this scenario).
The returned list is the sequence of observable actions. -/
def watchdog_container (retrySeconds : Nat) (env : WatchdogEnv)
    (event : DockerContainerStateEvent) : List WatchdogAction :=
  if event.name ≠ env.name then []
  else if env.read 0 ≠ event.state then []
  else
    match event.state with
    | ContainerState.unhealthy => [WatchdogAction.rebuild]
    | ContainerState.failed => [WatchdogAction.rebuild]
    | ContainerState.stopped =>
        if env.startFails then
          WatchdogAction.start :: WatchdogAction.sleep retrySeconds ::
            (if env.read 1 = ContainerState.stopped
             then [WatchdogAction.rebuild] else [])
        else [WatchdogAction.start]
    | _ => []

/-- Observable side effects of one run of `load()`. -/
inductive LoadAction where
  | register_event
  | attach (version : String) (skip_state_event_if_down : Bool)
  | install
  | start
deriving DecidableEq, Repr

/-- Environment `load()` runs against: whether `attach` raises (no existing
container), what `is_running()` reports, and what `get_latest_version()`
returns. -/
structure LoadEnv where
  attachFails : Bool
  isRunning : Bool
  latestVersion : String
deriving DecidableEq, Repr

/-- Modelled from the spec: `PluginBase.load` (the plugin base module is not
among the provided sources).  Per §4.3: register the watchdog handler with
the Event Bus; attach with the version from `get_latest_version` and
`skip_state_event_if_down=True`; if attach fails, recover locally with
`install` then `start`; if attach succeeds, `start` only when the instance
is not running.  The returned list is the sequence of observable actions;
the function is total, reflecting that an attach failure is recovered and
not propagated. -/
def load (env : LoadEnv) : List LoadAction :=
  LoadAction.register_event :: LoadAction.attach env.latestVersion true ::
    (if env.attachFails then [LoadAction.install, LoadAction.start]
     else if env.isRunning then [] else [LoadAction.start])

/-- `True` exactly on `attach` actions (with any arguments). -/
def isAttach : LoadAction → Bool
  | LoadAction.attach _ _ => true
  | _ => false

/-! ## Job execution guard (`supervisor/jobs/const.py` and the `Job`
decoration in `supervisor/host/sound.py`) -/

/-- `supervisor.jobs.const.JobCondition`. -/
inductive JobCondition where
  | free_space
  | healthy
  | internet_system
  | internet_host
  | running
  | haos
  | os_agent
  | host_network
  | supervisor_updated
deriving DecidableEq, Repr

/-- `supervisor.jobs.const.JobExecutionLimit`. -/
inductive JobExecutionLimit where
  | single_wait
  | once
  | throttle
  | throttle_wait
  | throttle_rate_limit
deriving DecidableEq, Repr

/-- The static configuration a `Job` decoration attaches to an operation:
the concurrency-limit policy and (when the policy throttles) the throttle
period in seconds. -/
structure JobConfig where
  limit : JobExecutionLimit
  throttle_period : Option Nat
deriving DecidableEq, Repr

/-- The `Job` decoration on `SoundControl.update` in
`supervisor/host/sound.py`:
`@Job(limit=JobExecutionLimit.THROTTLE_WAIT, throttle_period=timedelta(seconds=10))`. -/
def update_job : JobConfig :=
  { limit := JobExecutionLimit.throttle_wait, throttle_period := some 10 }

/-- Per-job-name policy state of the guard: until which instant an execution
is in flight (`busyUntil ≤ now` means idle) and the completion time of the
last completed run, if any. -/
structure JobGuardState where
  busyUntil : Nat
  lastCompleted : Option Nat
deriving DecidableEq, Repr

/-- Modelled from the spec: the `THROTTLE_WAIT` policy of the job guard (the
decorator module `supervisor/jobs/decorator.py` is not among the provided
sources).  Per §4.1: wait for any in-flight execution to complete, then skip
silently if the last completed run finished less than `throttle_period` ago,
otherwise run and record the completion time.  A call arriving at `arrival`
whose wrapped operation would take `duration` therefore begins its decision
at `max arrival busyUntil`; the returned Boolean is `true` when the wrapped
operation ran and `false` on a silent skip (a no-op completion, not an
error). -/
def throttle_wait_call (period : Nat) (st : JobGuardState)
    (arrival duration : Nat) : Bool × JobGuardState :=
  let startAt := max arrival st.busyUntil
  match st.lastCompleted with
  | some t =>
      if startAt < t + period then (false, st)
      else
        (true, { busyUntil := startAt + duration,
                 lastCompleted := some (startAt + duration) })
  | none =>
      (true, { busyUntil := startAt + duration,
               lastCompleted := some (startAt + duration) })

/-- The guard applied to `SoundControl.update`: `THROTTLE_WAIT` with the
10-second period from its `Job` decoration. -/
def update_guard : JobGuardState → Nat → Nat → Bool × JobGuardState :=
  throttle_wait_call 10

/-! ## `SoundControl` (`supervisor/host/sound.py`)

The pulse server is embedded as data: the results of the six pulse queries
the `_update` body performs (`server_info`, `sink_input_list`,
`source_output_list`, `sink_list`, `source_list`, `card_list`).  Volumes
(`volume.value_flat`) are copied through unchanged by the code, so they are
embedded as an opaque integer. -/

/-- `StreamType` from `supervisor/host/sound.py`. -/
inductive StreamType where
  | input
  | output
deriving DecidableEq, Repr

/-- `AudioApplication` from `supervisor/host/sound.py`. -/
structure AudioApplication where
  name : String
  index : Nat
  stream_index : Nat
  stream_type : StreamType
  volume : Int
  mute : Bool
  addon : String
deriving DecidableEq, Repr

/-- `AudioStream` from `supervisor/host/sound.py`. -/
structure AudioStream where
  name : String
  index : Nat
  description : String
  volume : Int
  mute : Bool
  default : Bool
  card : Option Nat
  applications : List AudioApplication
deriving DecidableEq, Repr

/-- `SoundProfile` from `supervisor/host/sound.py`. -/
structure SoundProfile where
  name : String
  description : String
  active : Bool
deriving DecidableEq, Repr

/-- `SoundCard` from `supervisor/host/sound.py`. -/
structure SoundCard where
  name : String
  index : Nat
  driver : String
  profiles : List SoundProfile
deriving DecidableEq, Repr

/-- A pulse `sink_input`/`source_output` record as `_update` reads it: the
fallback name, index, the sink (resp. source) stream index, flat volume,
mute flag, and the two proplist entries it consults (`application.name`,
`application.process.machine_id`), `none` when absent. -/
structure PulseApp where
  name : String
  index : Nat
  stream : Nat
  volume : Int
  mute : Bool
  prop_application_name : Option String
  prop_machine_id : Option String
deriving DecidableEq, Repr

/-- A pulse `sink`/`source` record as `_update` reads it.  `card` is the raw
card index; pulse reports `0xFFFFFFFF` when the stream belongs to no card. -/
structure PulseStream where
  name : String
  index : Nat
  description : String
  volume : Int
  mute : Bool
  card : Nat
deriving DecidableEq, Repr

/-- A pulse card profile record: name, description, availability. -/
structure PulseProfile where
  name : String
  description : String
  available : Bool
deriving DecidableEq, Repr

/-- A pulse card record: name, index, driver, profile list and the active
profile. -/
structure PulseCard where
  name : String
  index : Nat
  driver : String
  profile_list : List PulseProfile
  profile_active : PulseProfile
deriving DecidableEq, Repr

/-- `server_info()` fields `_update` consults. -/
structure PulseServerInfo where
  default_sink_name : String
  default_source_name : String
deriving DecidableEq, Repr

/-- The pulse server's answers to the six queries of one `_update` run. -/
structure PulseServer where
  server : PulseServerInfo
  sink_input_list : List PulseApp
  source_output_list : List PulseApp
  sink_list : List PulseStream
  source_list : List PulseStream
  card_list : List PulseCard
deriving DecidableEq, Repr

/-- The cached state of a `SoundControl` object. -/
structure SoundControl where
  cards : List SoundCard
  inputs : List AudioStream
  outputs : List AudioStream
  applications : List AudioApplication
deriving DecidableEq, Repr

/-- One `AudioApplication` as built in `_update`'s application loops:
`proplist.get("application.name", application.name)`, the index, the
sink/source stream index, the flat volume, the mute flag, and the machine id
with `-` replaced by `_`. -/
def mkApplication (stype : StreamType) (a : PulseApp) : AudioApplication :=
  { name := a.prop_application_name.getD a.name
    index := a.index
    stream_index := a.stream
    stream_type := stype
    volume := a.volume
    mute := a.mute
    addon := (a.prop_machine_id.getD "").replace "-" "_" }

/-- One `AudioStream` as built in `_update`'s sink/source loops: the `card`
field is `None` exactly when pulse reported the sentinel `0xFFFFFFFF`, the
`default` flag compares against the server's default name, and the attached
applications are those of matching stream index and type. -/
def mkStream (apps : List AudioApplication) (stype : StreamType)
    (defaultName : String) (s : PulseStream) : AudioStream :=
  { name := s.name
    index := s.index
    description := s.description
    volume := s.volume
    mute := s.mute
    default := s.name == defaultName
    card := if s.card ≠ 0xFFFFFFFF then some s.card else none
    applications := apps.filter fun a =>
      a.stream_index == s.index && a.stream_type == stype }

/-- One `SoundCard` as built in `_update`'s card loop: unavailable profiles
are skipped, and a profile is `active` when its name equals the active
profile's name. -/
def mkCard (c : PulseCard) : SoundCard :=
  { name := c.name
    index := c.index
    driver := c.driver
    profiles := (c.profile_list.filter (·.available)).map fun p =>
      { name := p.name
        description := p.description
        active := p.name == c.profile_active.name } }

/-- A `pulsectl` failure raised by one of the pulse queries:
`PulseOperationFailed`, or any other `PulseError`. -/
inductive PulseExc where
  | operationFailed
  | otherError
deriving DecidableEq, Repr

/-- The supervisor-level error `update` can raise. -/
inductive SupervisorError where
  | pulseAudioError
deriving DecidableEq, Repr

/-- The output list `_update` builds from `sink_list()`: every sink, as an
OUTPUT stream carrying its matching applications. -/
def updateOutputs (p : PulseServer) (apps : List AudioApplication) :
    List AudioStream :=
  p.sink_list.map
    (mkStream apps StreamType.output p.server.default_sink_name)

/-- The input list `_update` builds from `source_list()`: monitor devices
(names ending in `.monitor`) are filtered out; the rest become INPUT streams
carrying their matching applications. -/
def updateInputs (p : PulseServer) (apps : List AudioApplication) :
    List AudioStream :=
  (p.source_list.filter fun s => !s.name.endsWith ".monitor").map
    (mkStream apps StreamType.input p.server.default_source_name)

/-- The application list `_update` builds: sink inputs as OUTPUT streams,
then source outputs as INPUT streams. -/
def updateApplications (p : PulseServer) : List AudioApplication :=
  p.sink_input_list.map (mkApplication StreamType.output) ++
    p.source_output_list.map (mkApplication StreamType.input)

/-- Fault injection for a `_update` run: `some (k, e)` means the k-th pulse
query (0 `server_info`, 1 `sink_input_list`, 2 `source_output_list`,
3 `sink_list`, 4 `source_list`, 5 `card_list`) raises `e`; `none` means all
queries succeed, answered by the `PulseServer` data. -/
def faultAt (fault : Option (Nat × PulseExc)) (k : Nat) : Option PulseExc :=
  match fault with
  | some (j, e) => if j = k then some e else none
  | none => none

/-- The `try` body of `SoundControl.update`'s inner `_update`, traced with
fault injection.  Mutations happen in source order: `server_info`; clear and
rebuild `_applications` (sink inputs as OUTPUT streams, then source outputs
as INPUT streams); clear and rebuild `_outputs`; clear and rebuild `_inputs`
skipping `.monitor` sources; clear and rebuild `_cards`.  A raising query
aborts the body, leaving the mutations made so far in place (each `clear()`
precedes the query feeding its loop).  Returns the resulting cached state
and the exception the body raised, if any. -/
def update_body (p : PulseServer) (fault : Option (Nat × PulseExc))
    (st : SoundControl) : SoundControl × Option PulseExc :=
  match faultAt fault 0 with
  | some e => (st, some e)
  | none =>
  let st1 : SoundControl := { st with applications := [] }
  match faultAt fault 1 with
  | some e => (st1, some e)
  | none =>
  let st2 : SoundControl :=
    { st1 with applications :=
        p.sink_input_list.map (mkApplication StreamType.output) }
  match faultAt fault 2 with
  | some e => (st2, some e)
  | none =>
  let st3 : SoundControl :=
    { st2 with applications := st2.applications ++
        p.source_output_list.map (mkApplication StreamType.input) }
  let st4 : SoundControl := { st3 with outputs := [] }
  match faultAt fault 3 with
  | some e => (st4, some e)
  | none =>
  let st5 : SoundControl :=
    { st4 with outputs := updateOutputs p st4.applications }
  let st6 : SoundControl := { st5 with inputs := [] }
  match faultAt fault 4 with
  | some e => (st6, some e)
  | none =>
  let st7 : SoundControl :=
    { st6 with inputs := updateInputs p st6.applications }
  let st8 : SoundControl := { st7 with cards := [] }
  match faultAt fault 5 with
  | some e => (st8, some e)
  | none =>
  ({ st8 with cards := p.card_list.map mkCard }, none)

/-- `SoundControl.update`'s exception handling around the `_update` body:
`PulseOperationFailed` is re-raised as `PulseAudioError`; any other
`PulseError` is logged at debug level and swallowed, so `update` returns
normally.  Returns the resulting cached state and the error `update`
raises, if any. -/
def update (p : PulseServer) (fault : Option (Nat × PulseExc))
    (st : SoundControl) : SoundControl × Option SupervisorError :=
  match update_body p fault st with
  | (st2, some PulseExc.operationFailed) =>
      (st2, some SupervisorError.pulseAudioError)
  | (st2, some PulseExc.otherError) => (st2, none)
  | (st2, none) => (st2, none)

/-! ## Claims about the watchdog handler -/

/-- C1: for a container-state event whose subject matches the instance and
whose carried state equals the live current state at decision time, with the
guarded `start` succeeding (the failing case is the escalation of C4):
UNHEALTHY or FAILED invoke `rebuild` exactly once and never `start`;
STOPPED invokes `start` exactly once and never `rebuild`; every other state
invokes neither. -/
theorem C1_watchdog_transition_table (r : Nat) (env : WatchdogEnv)
    (ev : DockerContainerStateEvent)
    (hname : ev.name = env.name)
    (hlive : env.read 0 = ev.state)
    (hok : env.startFails = false) :
    ((ev.state = ContainerState.unhealthy ∨ ev.state = ContainerState.failed) →
      (watchdog_container r env ev).count WatchdogAction.rebuild = 1 ∧
      (watchdog_container r env ev).count WatchdogAction.start = 0) ∧
    (ev.state = ContainerState.stopped →
      (watchdog_container r env ev).count WatchdogAction.start = 1 ∧
      (watchdog_container r env ev).count WatchdogAction.rebuild = 0) ∧
    (ev.state ≠ ContainerState.unhealthy → ev.state ≠ ContainerState.failed →
      ev.state ≠ ContainerState.stopped →
      watchdog_container r env ev = []) := by
  obtain ⟨n, s, i, t⟩ := ev
  simp only at hname hlive ⊢
  cases s <;> simp [watchdog_container, hname, hlive, hok, List.count_cons]

/-- C1 witness: the UNHEALTHY scenario of the test suite, at retry delay 10
and the audio plugin's name. -/
theorem C1_watchdog_transition_table_witness :
    (watchdog_container 10
      ⟨"hassio_audio", fun _ => ContainerState.unhealthy, false⟩
      ⟨"hassio_audio", ContainerState.unhealthy, "abc123", 1⟩).count
      WatchdogAction.rebuild = 1 :=
  ((C1_watchdog_transition_table 10
      ⟨"hassio_audio", fun _ => ContainerState.unhealthy, false⟩
      ⟨"hassio_audio", ContainerState.unhealthy, "abc123", 1⟩
      rfl rfl rfl).1 (Or.inl rfl)).1

/-- C2: an event addressed to the right subject whose carried state differs
from the live current state read at decision time is discarded as stale:
neither `rebuild` nor `start` (nor anything else) is invoked. -/
theorem C2_watchdog_staleness_guard (r : Nat) (env : WatchdogEnv)
    (ev : DockerContainerStateEvent)
    (hname : ev.name = env.name)
    (hstale : env.read 0 ≠ ev.state) :
    watchdog_container r env ev = [] := by
  simp [watchdog_container, hname, hstale]

/-- C2 witness: the test scenario with live state HEALTHY and a carried
FAILED state. -/
theorem C2_watchdog_staleness_guard_witness :
    watchdog_container 10
      ⟨"hassio_audio", fun _ => ContainerState.healthy, false⟩
      ⟨"hassio_audio", ContainerState.failed, "abc123", 1⟩ = [] :=
  C2_watchdog_staleness_guard 10
    ⟨"hassio_audio", fun _ => ContainerState.healthy, false⟩
    ⟨"hassio_audio", ContainerState.failed, "abc123", 1⟩
    rfl (by decide)

/-- C3: an event whose subject name differs from the instance's own name is
ignored entirely, whatever state it carries: no action is invoked. -/
theorem C3_watchdog_ignores_other_subjects (r : Nat) (env : WatchdogEnv)
    (ev : DockerContainerStateEvent)
    (hname : ev.name ≠ env.name) :
    watchdog_container r env ev = [] := by
  simp [watchdog_container, hname]

/-- C3 witness: the test scenario with an UNHEALTHY event for
`addon_local_other` delivered to the audio plugin's watchdog. -/
theorem C3_watchdog_ignores_other_subjects_witness :
    watchdog_container 10
      ⟨"hassio_audio", fun _ => ContainerState.unhealthy, false⟩
      ⟨"addon_local_other", ContainerState.unhealthy, "abc123", 1⟩ = [] :=
  C3_watchdog_ignores_other_subjects 10
    ⟨"hassio_audio", fun _ => ContainerState.unhealthy, false⟩
    ⟨"addon_local_other", ContainerState.unhealthy, "abc123", 1⟩
    (by decide)

/-- C4: when the guarded `start` raises while handling a matching STOPPED
event and the live state still reads STOPPED, the handler sleeps for the
configurable retry delay and then invokes `rebuild` exactly once; `start`
itself was invoked exactly once and is not retried. -/
theorem C4_watchdog_start_failure_escalation (r : Nat) (env : WatchdogEnv)
    (ev : DockerContainerStateEvent)
    (hname : ev.name = env.name)
    (hstate : ev.state = ContainerState.stopped)
    (hlive : env.read 0 = ContainerState.stopped)
    (hlive2 : env.read 1 = ContainerState.stopped)
    (hfail : env.startFails = true) :
    watchdog_container r env ev =
      [WatchdogAction.start, WatchdogAction.sleep r, WatchdogAction.rebuild] ∧
    (watchdog_container r env ev).count WatchdogAction.start = 1 ∧
    (watchdog_container r env ev).count WatchdogAction.rebuild = 1 := by
  obtain ⟨n, s, i, t⟩ := ev
  simp only at hname hstate hlive hlive2 ⊢
  subst hstate
  simp [watchdog_container, hname, hlive, hlive2, hfail, List.count_cons]

/-- C4 witness: the rebuild-on-failure test scenario with the retry delay
patched and both `current_state` reads returning STOPPED. -/
theorem C4_watchdog_start_failure_escalation_witness :
    watchdog_container 0
      ⟨"hassio_audio", fun _ => ContainerState.stopped, true⟩
      ⟨"hassio_audio", ContainerState.stopped, "abc123", 1⟩ =
      [WatchdogAction.start, WatchdogAction.sleep 0, WatchdogAction.rebuild] :=
  (C4_watchdog_start_failure_escalation 0
    ⟨"hassio_audio", fun _ => ContainerState.stopped, true⟩
    ⟨"hassio_audio", ContainerState.stopped, "abc123", 1⟩
    rfl rfl rfl rfl rfl).1

/-! ## Claims about `load()` -/

/-- C5: on a subject with no existing container (`attach` raises), `load`
first registers the watchdog, attempts `attach` (which fails), then recovers
locally with `install` exactly once followed by `start` exactly once; it
returns normally (the model is a total function), not propagating the attach
failure. -/
theorem C5_load_missing_container (env : LoadEnv)
    (h : env.attachFails = true) :
    load env = [LoadAction.register_event,
      LoadAction.attach env.latestVersion true,
      LoadAction.install, LoadAction.start] ∧
    (load env).count LoadAction.install = 1 ∧
    (load env).count LoadAction.start = 1 := by
  simp [load, h, List.count_cons]

/-- C5 witness: the missing-container test scenario at version 2022.7.3. -/
theorem C5_load_missing_container_witness :
    load ⟨true, false, "2022.7.3"⟩ =
      [LoadAction.register_event, LoadAction.attach "2022.7.3" true,
       LoadAction.install, LoadAction.start] :=
  (C5_load_missing_container ⟨true, false, "2022.7.3"⟩ rfl).1

/-- C6: when `attach` succeeds, `load` never invokes `install`, and invokes
`start` exactly once when `is_running()` reports false and not at all when
it reports true. -/
theorem C6_load_existing_container (env : LoadEnv)
    (h : env.attachFails = false) :
    (load env).count LoadAction.install = 0 ∧
    (load env).count LoadAction.start =
      (if env.isRunning then 0 else 1) := by
  cases hr : env.isRunning <;> simp [load, h, hr, List.count_cons]

/-- C6 witness: the stopped-container test scenario (attach succeeds,
`is_running()` false) at version 2022.7.3. -/
theorem C6_load_existing_container_witness :
    (load ⟨false, false, "2022.7.3"⟩).count LoadAction.install = 0 ∧
    (load ⟨false, false, "2022.7.3"⟩).count LoadAction.start = 1 :=
  C6_load_existing_container ⟨false, false, "2022.7.3"⟩ rfl

/-- C7: on every call — whatever `attach` and `is_running()` do — `load`
registers the subject's watchdog handler with the Event Bus exactly once,
and performs exactly one `attach`, passing the version obtained from
`get_latest_version` and `skip_state_event_if_down=True`. -/
theorem C7_load_always_registers_and_attaches (env : LoadEnv) :
    (load env).count LoadAction.register_event = 1 ∧
    (load env).filter isAttach =
      [LoadAction.attach env.latestVersion true] := by
  cases ha : env.attachFails <;> cases hr : env.isRunning <;>
    simp [load, ha, hr, isAttach, List.count_cons, List.filter]

/-! ## Claims about the job execution guard -/

/-- C8: `SoundControl.update` is decorated with the `THROTTLE_WAIT` limit
and a 10-second throttle period; under that guard a call first waits out any
in-flight execution (its decision point is `max arrival busyUntil`), then:
if the last completed run finished less than 10 seconds before the decision
point the refresh is skipped silently (no run, state unchanged, no error);
otherwise the refresh runs, and when it runs after waiting its completion is
recorded at `max arrival busyUntil + duration`. -/
theorem C8_update_throttle_wait :
    update_job.limit = JobExecutionLimit.throttle_wait ∧
    update_job.throttle_period = some 10 ∧
    (∀ st a d t, st.lastCompleted = some t →
      max a st.busyUntil < t + 10 →
      update_guard st a d = (false, st)) ∧
    (∀ st a d t, st.lastCompleted = some t →
      t + 10 ≤ max a st.busyUntil →
      (update_guard st a d).1 = true) ∧
    (∀ st a d, (update_guard st a d).1 = true →
      ((update_guard st a d).2).lastCompleted =
        some (max a st.busyUntil + d)) := by
  refine ⟨rfl, rfl, ?_, ?_, ?_⟩
  · intro st a d t ht hlt
    simp [update_guard, throttle_wait_call, ht, hlt]
  · intro st a d t ht hle
    simp [update_guard, throttle_wait_call, ht, Nat.not_lt.mpr hle]
  · intro st a d
    rcases ht : st.lastCompleted with _ | t
    · intro h
      simp [update_guard, throttle_wait_call, ht]
    · simp only [update_guard, throttle_wait_call, ht]
      split_ifs with hc
      · intro h
        simp at h
      · intro h
        rfl

/-- C8 witness: concrete guard runs — a call 5 seconds after a completed run
is skipped with the state unchanged; a call 12 seconds after runs; a call
waiting for an in-flight run that completes at 20 records completion 23. -/
theorem C8_update_throttle_wait_witness :
    update_guard ⟨0, some 0⟩ 5 3 = (false, ⟨0, some 0⟩) ∧
    (update_guard ⟨0, some 0⟩ 12 3).1 = true ∧
    ((update_guard ⟨20, some 5⟩ 0 3).2).lastCompleted = some 23 :=
  ⟨C8_update_throttle_wait.2.2.1 ⟨0, some 0⟩ 5 3 0 rfl (by decide),
   C8_update_throttle_wait.2.2.2.1 ⟨0, some 0⟩ 12 3 0 rfl (by decide),
   C8_update_throttle_wait.2.2.2.2 ⟨20, some 5⟩ 0 3 (by decide)⟩

/-! ## Claims about `SoundControl.update` -/

/-- The only exception the `_update` body can raise under an `otherError`
injection is `otherError` itself: an injected plain `PulseError` can never
surface as `PulseOperationFailed`. -/
lemma update_body_other_exc (p : PulseServer) (k : Nat) (st : SoundControl) :
    (update_body p (some (k, PulseExc.otherError)) st).2 = none ∨
    (update_body p (some (k, PulseExc.otherError)) st).2 =
      some PulseExc.otherError := by
  match k with
  | 0 => right; rfl
  | 1 => right; rfl
  | 2 => right; rfl
  | 3 => right; rfl
  | 4 => right; rfl
  | 5 => right; rfl
  | (n + 6) =>
      left
      have h0 : n + 6 ≠ 0 := by omega
      have h1 : n + 6 ≠ 1 := by omega
      have h2 : n + 6 ≠ 2 := by omega
      have h3 : n + 6 ≠ 3 := by omega
      have h4 : n + 6 ≠ 4 := by omega
      have h5 : n + 6 ≠ 5 := by omega
      simp [update_body, faultAt, h0, h1, h2, h3, h4, h5]

/-- C9: `update` raises `PulseAudioError` exactly when the pulse refresh
body raised `PulseOperationFailed`; a refresh interrupted by any other
`PulseError` is swallowed and `update` returns normally — in particular it
can return normally with the cached lists partially updated (applications
refreshed, cards untouched), as the final existential exhibits. -/
theorem C9_update_error_routing :
    (∀ p fault st,
      (update p fault st).2 = some SupervisorError.pulseAudioError ↔
        (update_body p fault st).2 = some PulseExc.operationFailed) ∧
    (∀ p k st,
      (update p (some (k, PulseExc.otherError)) st).2 = none) ∧
    (∃ p st fault,
      (update p fault st).2 = none ∧
      ((update p fault st).1).applications ≠ st.applications ∧
      ((update p fault st).1).cards = st.cards ∧ st.cards ≠ []) := by
  refine ⟨?_, ?_, ?_⟩
  · intro p fault st
    rcases h : update_body p fault st with ⟨st2, _ | e⟩
    · simp [update, h]
    · cases e <;> simp [update, h]
  · intro p k st
    rcases update_body_other_exc p k st with h | h <;>
      rcases hb : update_body p (some (k, PulseExc.otherError)) st
        with ⟨st2, exc⟩ <;> rw [hb] at h <;> simp at h <;>
      simp [update, hb, h]
  · exact ⟨⟨⟨"s", "m"⟩, [⟨"app", 7, 3, 2, false, none, none⟩], [], [], [], []⟩,
      ⟨[⟨"card0", 0, "alsa", []⟩], [], [], []⟩,
      some (3, PulseExc.otherError), rfl, by decide, rfl, by decide⟩

/-- C10: a fault-free `update` run succeeds, rebuilds the inputs exactly as
the `.monitor`-filtered map over the pulse sources and the outputs as the
map over the pulse sinks, so no cached input stream's name ends in
`.monitor`; and a built stream's `card` field is `None` exactly when pulse
reported the sentinel card index `0xFFFFFFFF`. -/
theorem C10_update_inputs_invariants (p : PulseServer) (st : SoundControl) :
    (update p none st).2 = none ∧
    ((update p none st).1).inputs = updateInputs p (updateApplications p) ∧
    ((update p none st).1).outputs = updateOutputs p (updateApplications p) ∧
    (∀ s ∈ ((update p none st).1).inputs,
      s.name.endsWith ".monitor" = false) ∧
    (∀ apps stype dn ps,
      (mkStream apps stype dn ps).card = none ↔ ps.card = 0xFFFFFFFF) := by
  have hbody : update p none st =
      ({ cards := p.card_list.map mkCard
         inputs := updateInputs p (updateApplications p)
         outputs := updateOutputs p (updateApplications p)
         applications := updateApplications p }, none) := by
    simp [update, update_body, faultAt, updateApplications]
  refine ⟨by rw [hbody], by rw [hbody], by rw [hbody], ?_, ?_⟩
  · intro s hs
    rw [hbody] at hs
    simp only [updateInputs, List.mem_map, List.mem_filter] at hs
    obtain ⟨ps, ⟨_, hmon⟩, rfl⟩ := hs
    simpa [mkStream] using hmon
  · intro apps stype dn ps
    by_cases hc : ps.card = 0xFFFFFFFF <;> simp [mkStream, hc]

/-- C10 witness: a pulse server with one monitor source, one plain source
without a card, and one sink with card 0 — after the refresh, the one cached
input is the plain source, its name does not end in `.monitor`, its `card`
is `None` because pulse reported the sentinel, and the sink's card 0 is
kept. -/
theorem C10_update_inputs_invariants_witness :
    (∀ s ∈ ((update
        ⟨⟨"sink0", "mic0"⟩, [], [],
         [⟨"sink0", 0, "Sink", 2, false, 0⟩],
         [⟨"mic0", 1, "Mic", 2, false, 0xFFFFFFFF⟩,
          ⟨"sink0.monitor", 2, "Monitor of Sink", 2, false, 0⟩],
         []⟩ none ⟨[], [], [], []⟩).1).inputs,
      s.name.endsWith ".monitor" = false) ∧
    ((mkStream [] StreamType.input "mic0"
        ⟨"mic0", 1, "Mic", 2, false, 0xFFFFFFFF⟩).card = none ↔
      (0xFFFFFFFF : Nat) = 0xFFFFFFFF) ∧
    ((mkStream [] StreamType.output "sink0"
        ⟨"sink0", 0, "Sink", 2, false, 0⟩).card = none ↔
      (0 : Nat) = 0xFFFFFFFF) :=
  ⟨(C10_update_inputs_invariants
      ⟨⟨"sink0", "mic0"⟩, [], [],
       [⟨"sink0", 0, "Sink", 2, false, 0⟩],
       [⟨"mic0", 1, "Mic", 2, false, 0xFFFFFFFF⟩,
        ⟨"sink0.monitor", 2, "Monitor of Sink", 2, false, 0⟩],
       []⟩ ⟨[], [], [], []⟩).2.2.2.1,
   (C10_update_inputs_invariants
      ⟨⟨"sink0", "mic0"⟩, [], [],
       [⟨"sink0", 0, "Sink", 2, false, 0⟩],
       [⟨"mic0", 1, "Mic", 2, false, 0xFFFFFFFF⟩,
        ⟨"sink0.monitor", 2, "Monitor of Sink", 2, false, 0⟩],
       []⟩ ⟨[], [], [], []⟩).2.2.2.2 [] StreamType.input "mic0"
      ⟨"mic0", 1, "Mic", 2, false, 0xFFFFFFFF⟩,
   (C10_update_inputs_invariants
      ⟨⟨"sink0", "mic0"⟩, [], [],
       [⟨"sink0", 0, "Sink", 2, false, 0⟩],
       [⟨"mic0", 1, "Mic", 2, false, 0xFFFFFFFF⟩,
        ⟨"sink0.monitor", 2, "Monitor of Sink", 2, false, 0⟩],
       []⟩ ⟨[], [], [], []⟩).2.2.2.2 [] StreamType.output "sink0"
      ⟨"sink0", 0, "Sink", 2, false, 0⟩⟩

end Supervisor
